import Mathlib

/-!
Verification of the clifm trash subsystem (src/src/trash.c) against its
natural-language specification. External filesystem operations (lstat,
access, opendir, launch_execve running cp/rm, fopen) are modelled by
explicit outcome fields in environment structures, and the filesystem
facts the claims talk about (existence of the original file, of the
content copy in the files-store, of the .trashinfo record) by explicit
state records. Exit statuses follow the C convention: 0 is EXIT_SUCCESS,
1 is EXIT_FAILURE.
-/

/-! ## MetadataCodec: percent-encoding of paths

Modelled from the spec: the bodies of url_encode and url_decode live in
aux.c, which is not part of the sources given; only their prototypes
appear in src/src/aux.h. Following spec section 4.3, safe bytes
(ASCII alphanumerics and the bytes for the characters - _ . ~ /) pass
through unchanged and every other byte, the percent sign included, is
escaped as a percent sign followed by two uppercase hex digits.
Bytes are natural numbers below 256, so that non-ASCII bytes are covered.
-/

def isSafeByte (b : Nat) : Bool :=
  (48 <= b && b <= 57) || (65 <= b && b <= 90) || (97 <= b && b <= 122) ||
  b == 45 || b == 95 || b == 46 || b == 126 || b == 47

def hexDigit (n : Nat) : Nat :=
  if n < 10 then 48 + n else 55 + n

def from_hex (c : Nat) : Option Nat :=
  if 48 <= c ∧ c <= 57 then some (c - 48)
  else if 65 <= c ∧ c <= 70 then some (c - 55)
  else if 97 <= c ∧ c <= 102 then some (c - 87)
  else none

def url_encode : List Nat → List Nat
  | [] => []
  | b :: bs =>
    (if isSafeByte b then [b] else [37, hexDigit (b / 16), hexDigit (b % 16)])
      ++ url_encode bs

def url_decode : List Nat → Option (List Nat)
  | [] => some []
  | b :: bs =>
    if b = 37 then
      match bs with
      | h :: l :: rest =>
        match from_hex h, from_hex l with
        | some hv, some lv => (url_decode rest).map (fun r => (hv * 16 + lv) :: r)
        | _, _ => none
      | _ => none
    else
      (url_decode bs).map (fun r => b :: r)

lemma from_hex_hexDigit (n : Nat) (h : n < 16) : from_hex (hexDigit n) = some n := by
  rcases Nat.lt_or_ge n 10 with h10 | h10
  · have h1 : hexDigit n = 48 + n := if_pos h10
    rw [h1]
    unfold from_hex
    rw [if_pos (by omega)]
    congr 1
    omega
  · have h1 : hexDigit n = 55 + n := if_neg (by omega)
    rw [h1]
    unfold from_hex
    rw [if_neg (by omega), if_pos (by omega)]
    congr 1
    omega

lemma isSafeByte_ne_37 (b : Nat) (h : isSafeByte b = true) : b ≠ 37 := by
  intro hb
  subst hb
  simp [isSafeByte] at h

lemma url_decode_cons (b : Nat) (hb : b ≠ 37) (t : List Nat) :
    url_decode (b :: t) = (url_decode t).map (fun r => b :: r) := by
  rw [url_decode.eq_def]
  dsimp only
  rw [if_neg hb]

lemma url_decode_esc (h l : Nat) (hv lv : Nat) (t : List Nat)
    (hh : from_hex h = some hv) (hl : from_hex l = some lv) :
    url_decode (37 :: h :: l :: t) = (url_decode t).map (fun r => (hv * 16 + lv) :: r) := by
  rw [url_decode.eq_def]
  dsimp only
  rw [if_pos rfl, hh, hl]

lemma url_roundtrip_aux (p : List Nat) (h : ∀ b ∈ p, b < 256) :
    url_decode (url_encode p) = some p := by
  induction p with
  | nil => rfl
  | cons b bs ih =>
    have hb : b < 256 := h b (List.mem_cons_self b bs)
    have hbs : ∀ x ∈ bs, x < 256 := fun x hx => h x (List.mem_cons_of_mem b hx)
    by_cases hs : isSafeByte b = true
    · have henc : url_encode (b :: bs) = b :: url_encode bs := by
        simp [url_encode, hs]
      rw [henc, url_decode_cons b (isSafeByte_ne_37 b hs), ih hbs]
      rfl
    · have henc : url_encode (b :: bs)
          = 37 :: hexDigit (b / 16) :: hexDigit (b % 16) :: url_encode bs := by
        simp [url_encode, hs]
      have hhi : b / 16 < 16 := by omega
      have hlo : b % 16 < 16 := by omega
      rw [henc, url_decode_esc _ _ _ _ _ (from_hex_hexDigit _ hhi) (from_hex_hexDigit _ hlo),
        ih hbs]
      have hdm : b / 16 * 16 + b % 16 = b := by omega
      rw [hdm]
      rfl

/-- Claim C3: for every valid path, given as its list of bytes (each below
256, so spaces, percent signs and non-ASCII bytes are all covered),
decoding the percent-encoded form yields the path back exactly:
url_decode (url_encode p) = some p. -/
theorem url_decode_encode (p : List Nat) (h : ∀ b ∈ p, b < 256) :
    url_decode (url_encode p) = some p :=
  url_roundtrip_aux p h

/-- Witness for C3 at the byte string of "/h %\xC3\xA9": a path containing
a space, a percent sign and the two bytes of a non-ASCII UTF-8 code point. -/
theorem url_decode_encode_witness :
    url_decode (url_encode [47, 104, 32, 37, 195, 169]) = some [47, 104, 32, 37, 195, 169] :=
  url_decode_encode [47, 104, 32, 37, 195, 169] (by decide)

/-! ## TrashWriter: trash_element (trash.c lines 312-489)

The outcome of each external operation performed by trash_element is a
field of TrashEnv, in program order: lstat on the file, the
wx_parent_check permission validation, the basename extraction
(straftlst), the cp -a into the files-store, the fopen of the
.trashinfo record, url_encode, the rm -r of the original, and the rm -r
used by the two rollback sites (at most one of which runs per call).
TrashState records what exists on disk: the original path, the content
copy in the files-store, the info record in the info-store. -/

structure TrashEnv where
  lstatOk : Bool
  permOk : Bool
  filenameOk : Bool
  copyOk : Bool
  infoOpenOk : Bool
  encodeOk : Bool
  removeOrigOk : Bool
  rollbackRmOk : Bool
deriving DecidableEq

structure TrashState where
  origExists : Bool
  contentInTrash : Bool
  infoInTrash : Bool
deriving DecidableEq

def trash_element (e : TrashEnv) (s : TrashState) : Nat × TrashState :=
  if e.lstatOk = false then (1, s)
  else if e.permOk = false then (1, s)
  else if e.filenameOk = false then (1, s)
  else if e.copyOk = false then (1, s)
  else
    let s1 : TrashState := { s with contentInTrash := true }
    if e.infoOpenOk = false then
      if e.rollbackRmOk then (1, { s1 with contentInTrash := false })
      else (1, s1)
    else
      let s2 : TrashState := { s1 with infoInTrash := true }
      if e.encodeOk = false then (1, s2)
      else if e.removeOrigOk then (0, { s2 with origExists := false })
      else if e.rollbackRmOk then (0, { s2 with contentInTrash := false, infoInTrash := false })
      else (1, s2)

def envRemoveFail : TrashEnv :=
  { lstatOk := true, permOk := true, filenameOk := true, copyOk := true,
    infoOpenOk := true, encodeOk := true, removeOrigOk := false, rollbackRmOk := true }

/-- Claim C1 (code bug): when every step up to and including the info
record succeeds but the rm -r of the original fails and the rollback rm
succeeds, trash_element falls through after the rollback (trash.c lines
464-484 end without an early return on the rollback-success path) and
returns EXIT_SUCCESS, with the original still existing and no trash pair
left — contradicting the claim that success is returned only when the
removal of the original succeeds. -/
theorem trash_element_remove_fail_returns_success :
    trash_element envRemoveFail
        { origExists := true, contentInTrash := false, infoInTrash := false }
      = (0, { origExists := true, contentInTrash := false, infoInTrash := false }) ∧
    envRemoveFail.removeOrigOk = false := by
  constructor
  · rfl
  · rfl

/-- Claim C7: when the permission validation (wx_parent_check) does not
return Ok, trash_element fails with no side effects: the state is
unchanged, so the file is untouched and no content copy or info record
is created in the trash store. -/
theorem trash_element_perm_denied_no_side_effects (e : TrashEnv) (s : TrashState)
    (h : e.permOk = false) : trash_element e s = (1, s) := by
  unfold trash_element
  cases hl : e.lstatOk
  · simp
  · simp [h]

def envPermDenied : TrashEnv :=
  { lstatOk := true, permOk := false, filenameOk := true, copyOk := true,
    infoOpenOk := true, encodeOk := true, removeOrigOk := true, rollbackRmOk := true }

/-- Witness for C7 at a concrete environment in which the permission
check is denied and everything else would succeed. -/
theorem trash_element_perm_denied_witness :
    trash_element envPermDenied
        { origExists := true, contentInTrash := false, infoInTrash := false }
      = (1, { origExists := true, contentInTrash := false, infoInTrash := false }) :=
  trash_element_perm_denied_no_side_effects envPermDenied
    { origExists := true, contentInTrash := false, infoInTrash := false } rfl

/-! ## RestoreEngine: untrash_element (trash.c lines 664-785)

Outcome fields in program order: the fopen of the .trashinfo record, the
extraction of a non-empty Path= field, url_decode, the parent-path
computation (strbfrlst or the root special case), access(parent, F_OK),
access(parent, X_OK | W_OK), the cp -a back to the original path, and
the rm -r of the two trash halves. The same TrashState records the
filesystem facts; origExists stands for the file existing at its
original (restored) path. -/

structure UntrashEnv where
  infoOpenOk : Bool
  pathOk : Bool
  decodeOk : Bool
  parentOk : Bool
  parentExists : Bool
  parentWx : Bool
  copyBackOk : Bool
  rmTrashOk : Bool
deriving DecidableEq

def untrash_element (e : UntrashEnv) (s : TrashState) : Nat × TrashState :=
  if e.infoOpenOk = false then (1, s)
  else if e.pathOk = false then (1, s)
  else if e.decodeOk = false then (1, s)
  else if e.parentOk = false then (1, s)
  else if e.parentExists = false then (1, s)
  else if e.parentWx = false then (1, s)
  else if e.copyBackOk then
    let s1 : TrashState := { s with origExists := true }
    if e.rmTrashOk then (0, { s1 with contentInTrash := false, infoInTrash := false })
    else (1, s1)
  else (1, s)

def envUndelRmFail : UntrashEnv :=
  { infoOpenOk := true, pathOk := true, decodeOk := true, parentOk := true,
    parentExists := true, parentWx := true, copyBackOk := true, rmTrashOk := false }

def stTrashedEntry : TrashState :=
  { origExists := false, contentInTrash := true, infoInTrash := true }

/-- Counterexample for C2: with every step succeeding up to a successful
copy back to the original path, but the rm -r of the two trash halves
failing, untrash_element returns EXIT_FAILURE (trash.c line 774), even
though the file now exists at its original location — the restore is
not reported as successful, contrary to the claim. -/
theorem untrash_element_delete_fail_not_success :
    (untrash_element envUndelRmFail stTrashedEntry).1 ≠ 0 ∧
    (untrash_element envUndelRmFail stTrashedEntry).2.origExists = true := by
  constructor
  · decide
  · rfl

/-- Amended C2: if restore succeeds in copying the content back to the
original path but then fails to delete the trash content and metadata
halves, untrash_element reports the restore as a failure (it returns
EXIT_FAILURE after printing a removal error), although the file does
exist at its original location and the stale trash artifacts remain. -/
theorem untrash_element_delete_fail_reports_failure (e : UntrashEnv) (s : TrashState)
    (h1 : e.infoOpenOk = true) (h2 : e.pathOk = true) (h3 : e.decodeOk = true)
    (h4 : e.parentOk = true) (h5 : e.parentExists = true) (h6 : e.parentWx = true)
    (h7 : e.copyBackOk = true) (h8 : e.rmTrashOk = false) :
    untrash_element e s = (1, { s with origExists := true }) := by
  unfold untrash_element
  rw [h1, h2, h3, h4, h5, h6, h7, h8]
  rfl

/-- Witness for the amended C2 at a concrete environment and state. -/
theorem untrash_element_delete_fail_witness :
    untrash_element envUndelRmFail stTrashedEntry
      = (1, { origExists := true, contentInTrash := true, infoInTrash := true }) :=
  untrash_element_delete_fail_reports_failure envUndelRmFail stTrashedEntry
    rfl rfl rfl rfl rfl rfl rfl rfl

/-! ## SelectionParser: interactive selection in remove_from_trash
(trash.c lines 559-661) and untrash_function (lines 878-945)

The token strings typed by the user are classified the way the C code
classifies them: the exact string "q", the exact string "*", a token
accepted by is_number (whose numeric value atoi yields), or anything
else. is_number and atoi live in files outside the given sources, so a
token arrives here already classified as a Tok. The external outcome of
removing (or restoring) a trashed name is an oracle function from the
name to Bool. Each model returns the exit status together with the list
of trashed names on which a removal or restore was actually attempted,
in order. -/

inductive Tok where
  | q : Tok
  | star : Tok
  | num : Nat → Tok
  | other : String → Tok
deriving DecidableEq

def isNumTok : Tok → Bool
  | Tok.num _ => true
  | _ => false

def isOtherTok : Tok → Bool
  | Tok.other _ => true
  | _ => false

inductive ScanResult where
  | quit : ScanResult
  | star : ScanResult
  | invalid : ScanResult
  | allNums : ScanResult
deriving DecidableEq

def pre_scan : List Tok → ScanResult
  | [] => ScanResult.allNums
  | Tok.q :: _ => ScanResult.quit
  | Tok.star :: _ => ScanResult.star
  | Tok.other _ :: _ => ScanResult.invalid
  | Tok.num _ :: rest => pre_scan rest

def rm_num_loop (rmOk : String → Bool) (files : List String) : List Tok → Bool × List String
  | [] => (true, [])
  | Tok.num n :: rest =>
    if n = 0 || files.length < n then
      let r := rm_num_loop rmOk files rest
      (false, r.2)
    else
      let name := files.getD (n - 1) ""
      let r := rm_num_loop rmOk files rest
      (rmOk name && r.1, name :: r.2)
  | _ :: rest => rm_num_loop rmOk files rest

def remove_from_trash_sel (rmOk : String → Bool) (files : List String)
    (toks : List Tok) : Nat × List String :=
  match pre_scan toks with
  | ScanResult.quit => (0, [])
  | ScanResult.star => ((if files.all rmOk then 0 else 1), files)
  | ScanResult.invalid => (1, [])
  | ScanResult.allNums =>
    let r := rm_num_loop rmOk files toks
    ((if r.1 then 0 else 1), r.2)

def untrash_scan (resOk : String → Bool) (files : List String) :
    List Tok → Bool × Bool × List String
  | [] => (false, true, [])
  | Tok.q :: rest =>
    let r := untrash_scan resOk files rest
    (true, r.2.1, r.2.2)
  | Tok.star :: rest =>
    let ok := files.all resOk
    let r := untrash_scan resOk files rest
    (true, ok && r.2.1, files ++ r.2.2)
  | Tok.other _ :: rest =>
    let r := untrash_scan resOk files rest
    (true, false, r.2.2)
  | Tok.num _ :: rest => untrash_scan resOk files rest

def undel_num_loop (resOk : String → Bool) (files : List String) : List Tok → Bool × List String
  | [] => (true, [])
  | Tok.num n :: rest =>
    if n = 0 || files.length < n then undel_num_loop resOk files rest
    else
      let name := files.getD (n - 1) ""
      let r := undel_num_loop resOk files rest
      (resOk name && r.1, name :: r.2)
  | _ :: rest => undel_num_loop resOk files rest

def untrash_sel (resOk : String → Bool) (files : List String)
    (toks : List Tok) : Nat × List String :=
  let sc := untrash_scan resOk files toks
  if sc.1 then ((if sc.2.1 then 0 else 1), sc.2.2)
  else
    let r := undel_num_loop resOk files toks
    ((if r.1 then 0 else 1), r.2)

def attemptedOf (files : List String) : List Tok → List String
  | [] => []
  | Tok.num n :: rest =>
    (if n = 0 || files.length < n then [] else [files.getD (n - 1) ""])
      ++ attemptedOf files rest
  | _ :: rest => attemptedOf files rest

lemma rm_num_loop_snd (rmOk : String → Bool) (files : List String) (toks : List Tok) :
    (rm_num_loop rmOk files toks).2 = attemptedOf files toks := by
  induction toks with
  | nil => rfl
  | cons t rest ih =>
    cases t with
    | q => simpa [rm_num_loop, attemptedOf] using ih
    | star => simpa [rm_num_loop, attemptedOf] using ih
    | other s => simpa [rm_num_loop, attemptedOf] using ih
    | num n =>
      by_cases hn : n = 0 || files.length < n
      · simpa [rm_num_loop, attemptedOf, hn] using ih
      · simpa [rm_num_loop, attemptedOf, hn] using ih

lemma undel_num_loop_snd (resOk : String → Bool) (files : List String) (toks : List Tok) :
    (undel_num_loop resOk files toks).2 = attemptedOf files toks := by
  induction toks with
  | nil => rfl
  | cons t rest ih =>
    cases t with
    | q => simpa [undel_num_loop, attemptedOf] using ih
    | star => simpa [undel_num_loop, attemptedOf] using ih
    | other s => simpa [undel_num_loop, attemptedOf] using ih
    | num n =>
      by_cases hn : n = 0 || files.length < n
      · simpa [undel_num_loop, attemptedOf, hn] using ih
      · simpa [undel_num_loop, attemptedOf, hn] using ih

lemma pre_scan_allNums (toks : List Tok) (h : toks.all isNumTok = true) :
    pre_scan toks = ScanResult.allNums := by
  induction toks with
  | nil => rfl
  | cons t rest ih =>
    cases t with
    | q => simp [isNumTok] at h
    | star => simp [isNumTok] at h
    | other s => simp [isNumTok] at h
    | num n =>
      simp only [List.all_cons, Bool.and_eq_true] at h
      exact ih h.2

lemma pre_scan_invalid (toks : List Tok)
    (hall : toks.all (fun t => isNumTok t || isOtherTok t) = true)
    (hsome : toks.any isOtherTok = true) :
    pre_scan toks = ScanResult.invalid := by
  induction toks with
  | nil => simp at hsome
  | cons t rest ih =>
    simp only [List.all_cons, Bool.and_eq_true] at hall
    simp only [List.any_cons, Bool.or_eq_true] at hsome
    cases t with
    | q => simp [isNumTok, isOtherTok] at hall
    | star => simp [isNumTok, isOtherTok] at hall
    | other s => rfl
    | num n =>
      rcases hsome with h1 | h1
      · simp [isOtherTok] at h1
      · exact ih hall.2 h1

lemma untrash_scan_nums (resOk : String → Bool) (files : List String)
    (toks : List Tok) (h : toks.all isNumTok = true) :
    untrash_scan resOk files toks = (false, true, []) := by
  induction toks with
  | nil => rfl
  | cons t rest ih =>
    cases t with
    | q => simp [isNumTok] at h
    | star => simp [isNumTok] at h
    | other s => simp [isNumTok] at h
    | num n =>
      simp only [List.all_cons, Bool.and_eq_true] at h
      simpa [untrash_scan] using ih h.2

lemma untrash_scan_invalid (resOk : String → Bool) (files : List String) (toks : List Tok)
    (hall : toks.all (fun t => isNumTok t || isOtherTok t) = true)
    (hsome : toks.any isOtherTok = true) :
    (untrash_scan resOk files toks).1 = true ∧
    (untrash_scan resOk files toks).2.1 = false ∧
    (untrash_scan resOk files toks).2.2 = [] := by
  induction toks with
  | nil => simp at hsome
  | cons t rest ih =>
    simp only [List.all_cons, Bool.and_eq_true] at hall
    simp only [List.any_cons, Bool.or_eq_true] at hsome
    cases t with
    | q => simp [isNumTok, isOtherTok] at hall
    | star => simp [isNumTok, isOtherTok] at hall
    | other s =>
      have hrest := hall.2
      by_cases hs : rest.any isOtherTok = true
      · have h3 := (ih hrest hs).2.2
        exact ⟨rfl, rfl, by simpa [untrash_scan] using h3⟩
      · have hnums : rest.all isNumTok = true := by
          rw [List.all_eq_true] at hrest ⊢
          intro t ht
          have h1 := hrest t ht
          cases t with
          | other s2 =>
            exfalso
            rw [List.any_eq_true] at hs
            exact hs ⟨Tok.other s2, ht, rfl⟩
          | q => simp [isNumTok, isOtherTok] at h1
          | star => simp [isNumTok, isOtherTok] at h1
          | num n => rfl
        refine ⟨rfl, rfl, ?_⟩
        simp only [untrash_scan]
        rw [untrash_scan_nums resOk files rest hnums]
    | num n =>
      rcases hsome with h1 | h1
      · simp [isOtherTok] at h1
      · have h3 := ih hall.2 h1
        exact ⟨by simpa [untrash_scan] using h3.1,
          by simpa [untrash_scan] using h3.2.1,
          by simpa [untrash_scan] using h3.2.2⟩

/-- Counterexample for C4: with trashed files "a" and "b" and the token
batch consisting of an invalid (non-numeric) token followed by the valid
ordinal 1, remove_from_trash aborts the whole batch in its first
checking loop (trash.c lines 614-630): nothing at all is removed,
whereas skip-and-continue semantics would still have removed file "a"
(the attemptedOf value). -/
theorem remove_from_trash_invalid_token_aborts :
    remove_from_trash_sel (fun _ => true) ["a", "b"] [Tok.other ("x"), Tok.num 1]
      = (1, []) ∧
    attemptedOf ["a", "b"] [Tok.other ("x"), Tok.num 1] = ["a"] := by
  constructor
  · rfl
  · rfl

/-- Amended C4: in both remove_from_trash and untrash_function, when all
tokens of the batch are numeric, each out-of-range token is skipped and
the remaining tokens are still processed (the removals attempted are
exactly those of the in-range ordinals, in order); but a non-numeric
token aborts the entire batch before any numeric token is processed:
both functions return EXIT_FAILURE having attempted nothing. -/
theorem selection_partial_failure (rmOk resOk : String → Bool) (files : List String)
    (toks : List Tok) :
    (toks.all isNumTok = true →
      (remove_from_trash_sel rmOk files toks).2 = attemptedOf files toks ∧
      (untrash_sel resOk files toks).2 = attemptedOf files toks) ∧
    (toks.all (fun t => isNumTok t || isOtherTok t) = true →
      toks.any isOtherTok = true →
      remove_from_trash_sel rmOk files toks = (1, []) ∧
      untrash_sel resOk files toks = (1, [])) := by
  constructor
  · intro h
    constructor
    · unfold remove_from_trash_sel
      rw [pre_scan_allNums toks h]
      exact rm_num_loop_snd rmOk files toks
    · unfold untrash_sel
      rw [untrash_scan_nums resOk files toks h]
      exact undel_num_loop_snd resOk files toks
  · intro hall hsome
    constructor
    · unfold remove_from_trash_sel
      rw [pre_scan_invalid toks hall hsome]
    · have h3 := untrash_scan_invalid resOk files toks hall hsome
      simp [untrash_sel, h3.1, h3.2.1, h3.2.2]

/-- Witness for the amended C4: a numeric batch with an out-of-range
ordinal 9 between the valid ordinals 2 and 1 still removes both valid
entries. -/
theorem selection_partial_failure_witness :
    (remove_from_trash_sel (fun _ => true) ["a", "b", "c"]
        [Tok.num 2, Tok.num 9, Tok.num 1]).2
      = attemptedOf ["a", "b", "c"] [Tok.num 2, Tok.num 9, Tok.num 1] :=
  ((selection_partial_failure (fun _ => true) (fun _ => true) ["a", "b", "c"]
      [Tok.num 2, Tok.num 9, Tok.num 1]).1 rfl).1

/-! ## Interactive restore loop: untrash_function (trash.c lines 843-963)

After the interactive numeric pass, untrash_function counts the trash
directory again (count_dir) and calls itself when more than the two
trivial entries remain. The model returns the exit status together with
the decision whether the function recurses (re-lists and re-prompts);
remaining is the count_dir result after the pass. The "restore all"
paths — the argument forms "*", "a" and "all" (lines 843-861) and the
interactive "*" token, which sets free_and_return (lines 901-928) —
return before that check. -/

def untrash_interactive (resOk : String → Bool) (files : List String)
    (toks : List Tok) (remaining : Nat) : Nat × Bool :=
  let sc := untrash_scan resOk files toks
  if sc.1 then ((if sc.2.1 then 0 else 1), false)
  else
    let r := undel_num_loop resOk files toks
    ((if r.1 then 0 else 1), decide (2 < remaining))

/-- Counterexample for C9: an interactive full "restore all" pass (the
token "*") whose restore fails, leaving the store with 3 directory
entries (more than the trivial two), returns immediately with no
re-list and no re-prompt: the free_and_return path of trash.c lines
917-928 exits before the count_dir retry check at lines 954-961. -/
theorem untrash_star_pass_no_reprompt :
    untrash_interactive (fun _ => false) ["a"] [Tok.star] 3 = (1, false) := by
  rfl

/-- Amended C9: the re-list-and-re-prompt retry happens exactly after a
pass in which the scan saw neither "q" nor "*" nor an invalid token (a
purely numeric selection pass) and the trash store still holds more than
the trivial two directory entries; a "restore all" pass (interactive "*"
or the argument forms) returns without re-prompting. -/
theorem untrash_reprompt_condition (resOk : String → Bool) (files : List String)
    (toks : List Tok) (remaining : Nat) :
    (untrash_interactive resOk files toks remaining).2
      = (!(untrash_scan resOk files toks).1 && decide (2 < remaining)) := by
  unfold untrash_interactive
  cases h : (untrash_scan resOk files toks).1 <;> simp [h]

/-! ## Working-directory discipline: trash_clear (trash.c lines 248-310)
and list_trashed_files (lines 967-1004)

Both functions xchdir into the trash files directory before scandir and
are supposed to xchdir back to workspaces[cur_ws].path before returning.
Cwd tracks which of the two directories the process is left in. For
trash_clear, rmOks holds the per-entry outcome of the rm -r launched for
each scanned entry, so rmOks.length is the scandir count; scandir itself
is assumed not to error there (its -1 case would make the loop bound
(size_t)(-1) wrap, a different defect). For list_trashed_files,
scandirOk distinguishes the scandir error return. -/

inductive Cwd where
  | workspace : Cwd
  | trashDir : Cwd
deriving DecidableEq

structure ClearEnv where
  chdirTrashOk : Bool
  rmOks : List Bool
  chdirBackOk : Bool
deriving DecidableEq

def trash_clear (e : ClearEnv) : Nat × Cwd :=
  if e.chdirTrashOk = false then (1, Cwd.workspace)
  else if e.rmOks.length = 0 then (0, Cwd.trashDir)
  else
    let st : Nat := if e.rmOks.all (fun b => b) then 0 else 1
    if e.chdirBackOk then (st, Cwd.workspace) else (1, Cwd.trashDir)

structure ListEnv where
  chdirTrashOk : Bool
  scandirOk : Bool
  files : List String
  chdirBackOk : Bool
deriving DecidableEq

def list_trashed_files (e : ListEnv) : Int × Cwd :=
  if e.chdirTrashOk = false then (1, Cwd.workspace)
  else if e.scandirOk = false then (1, Cwd.trashDir)
  else if e.files.length = 0 then (-1, Cwd.trashDir)
  else if e.chdirBackOk then (0, Cwd.workspace) else (1, Cwd.trashDir)

/-- Claim C5 (code bug): trash_clear, on the early-return path where the
trash store is empty (trash.c lines 262-265), and list_trashed_files, on
both the scandir-error path (lines 981-984) and the empty-store path
(lines 985-988), return while the process working directory is still the
trash files directory: the xchdir back to the workspace path is never
executed on those exit paths, although the sibling paths of the same
functions and of remove_from_trash and untrash_function do restore it. -/
theorem cwd_not_restored_on_early_returns :
    trash_clear { chdirTrashOk := true, rmOks := [], chdirBackOk := true }
      = (0, Cwd.trashDir) ∧
    list_trashed_files
        { chdirTrashOk := true, scandirOk := true, files := [], chdirBackOk := true }
      = (-1, Cwd.trashDir) ∧
    list_trashed_files
        { chdirTrashOk := true, scandirOk := false, files := [], chdirBackOk := true }
      = (1, Cwd.trashDir) := by
  constructor
  · rfl
  · constructor
    · rfl
    · rfl

/-! ## PermissionValidator: recur_perm_check (trash.c lines 51-103) and
the directory branch of wx_parent_check (lines 142-193)

A directory subtree is a DirTree: each node carries its entry name, the
result of access(path, W_OK | X_OK) on it, and its subdirectories (the
non-directory entries, which recur_perm_check skips, are irrelevant and
left out; opendir is assumed to succeed, and the "." and ".." entries
that the C code skips are not represented). recur_list is the readdir
loop: for each subdirectory it checks access, records the denial in the
global recur_perm_error_flag (threaded here as the flag argument) and
prints the offending path (collected here as a list), then recurses
unconditionally; the C code ignores the recursive return value and
derives its own from the flag. spec_denied is the spec-side description:
the list of every subdirectory beneath the root lacking write+execute
permission, in depth-first pre-order. -/

inductive DirTree where
  | node : String → Bool → List DirTree → DirTree

def recur_list (dirname : String) (flag : Bool) : List DirTree → Bool × List String
  | [] => (flag, [])
  | DirTree.node nm wx subs :: rest =>
    let p := dirname ++ "/" ++ nm
    let flag1 := if wx then flag else true
    let rep1 : List String := if wx then [] else [p]
    let r2 := recur_list p flag1 subs
    let r3 := recur_list dirname r2.1 rest
    (r3.1, rep1 ++ r2.2 ++ r3.2)

def recur_perm_check (dirname : String) (flag : Bool) (subs : List DirTree) :
    Nat × List String :=
  let r := recur_list dirname flag subs
  ((if r.1 then 1 else 0), r.2)

def spec_denied (dirname : String) : List DirTree → List String
  | [] => []
  | DirTree.node nm wx subs :: rest =>
    let p := dirname ++ "/" ++ nm
    (if wx then [] else [p]) ++ spec_denied p subs ++ spec_denied dirname rest

lemma isEmpty_append (l1 l2 : List String) :
    (l1 ++ l2).isEmpty = (l1.isEmpty && l2.isEmpty) := by
  cases l1
  · simp
  · simp

lemma recur_list_eq_aux : ∀ (n : Nat) (d : String) (f : Bool) (ts : List DirTree),
    sizeOf ts ≤ n →
    recur_list d f ts = ((f || !((spec_denied d ts).isEmpty)), spec_denied d ts) := by
  intro n
  induction n with
  | zero =>
    intro d f ts h
    cases ts with
    | nil => simp [recur_list, spec_denied]
    | cons t rest =>
      exfalso
      cases t
      simp at h
  | succ n ih =>
    intro d f ts h
    cases ts with
    | nil => simp [recur_list, spec_denied]
    | cons t rest =>
      cases t with
      | node nm wx subs =>
        have hs : sizeOf (DirTree.node nm wx subs :: rest) =
            1 + (1 + sizeOf nm + sizeOf wx + sizeOf subs) + sizeOf rest := by
          simp
        have hsub : sizeOf subs ≤ n := by omega
        have hrest : sizeOf rest ≤ n := by omega
        simp only [recur_list, spec_denied]
        rw [ih _ _ subs hsub]
        rw [ih _ _ rest hrest]
        cases wx
        · simp only [if_neg (by simp : ¬(false = true))]
          simp [isEmpty_append, Bool.or_assoc]
        · simp only [if_pos rfl]
          simp [isEmpty_append, Bool.or_assoc]

/-- The environment of one wx_parent_check call on a directory: the
immutable-bit check result (none models the check itself erroring), the
access(parent, W_OK | X_OK) result, count_dir(parent), the
access(file, W_OK | X_OK) result, and count_dir(file). -/
structure WxDirEnv where
  immut : Option Bool
  parentWx : Bool
  parentCount : Nat
  selfWx : Bool
  selfCount : Nat
deriving DecidableEq

def wx_parent_check_dir (e : WxDirEnv) (parent file : String) (subs : List DirTree) :
    Nat × List String :=
  match e.immut with
  | none => (1, [])
  | some true => (1, [file])
  | some false =>
    if e.parentWx then
      if 2 < e.parentCount then
        if e.selfWx then
          if 2 < e.selfCount then recur_perm_check file false subs
          else (0, [])
        else (1, [file])
      else (0, [])
    else (1, [parent])

/-- Claim C6: when wx_parent_check reaches the recursive check of a
directory (immutable bit clear, parent and directory grant write and
execute, both non-trivially populated), the recursion — entered with the
shared error flag reset — visits the whole subtree depth-first,
continuing into sibling subtrees after a denial, so the paths it reports
are exactly spec_denied: every subdirectory beneath the directory whose
access(W_OK | X_OK) check fails, in depth-first pre-order; and the call
returns failure precisely when at least one such denial exists. -/
theorem wx_parent_check_reports_all_denied (e : WxDirEnv) (parent file : String)
    (subs : List DirTree)
    (h1 : e.immut = some false) (h2 : e.parentWx = true) (h3 : 2 < e.parentCount)
    (h4 : e.selfWx = true) (h5 : 2 < e.selfCount) :
    (wx_parent_check_dir e parent file subs).2 = spec_denied file subs ∧
    ((wx_parent_check_dir e parent file subs).1 = 0 ↔ spec_denied file subs = []) := by
  have hr := recur_list_eq_aux (sizeOf subs) file false subs (le_refl _)
  simp only [wx_parent_check_dir, h1, h2, h4, if_pos h3, if_pos h5, if_true,
    recur_perm_check, hr]
  constructor
  · trivial
  · cases hsd : spec_denied file subs
    · simp
    · simp

def envWxDemo : WxDirEnv :=
  { immut := some false, parentWx := true, parentCount := 3, selfWx := true, selfCount := 3 }

def demoTree : List DirTree :=
  [DirTree.node ("a") false [DirTree.node ("c") false []], DirTree.node ("b") false []]

/-- Witness for C6 on a subtree with a denied child, a denied grandchild
beneath it, and a denied sibling after them: all three are reported and
the check fails. -/
theorem wx_parent_check_reports_all_denied_witness :
    (wx_parent_check_dir envWxDemo ("p") ("d") demoTree).2 = spec_denied ("d") demoTree ∧
    ((wx_parent_check_dir envWxDemo ("p") ("d") demoTree).1 = 0 ↔
      spec_denied ("d") demoTree = []) :=
  wx_parent_check_reports_all_denied envWxDemo ("p") ("d") demoTree
    rfl rfl (by decide) rfl (by decide)

/-! ## Trashed-name construction and truncation (trash.c lines 341-376)

The trashed name is filename ++ "." ++ suffix. The C code computes
size = (filename_len + suffix_len + 11) - NAME_MAX as an int (NAME_MAX
is 255 and 11 counts the joining dot plus ".trashinfo"); when size is
positive it overwrites filename[filename_len - size - 1] with a tilde
and terminates the string right after it, so the basename becomes its
first (filename_len - size - 1) characters followed by the tilde. -/

def mkTrashedName (filename suffix : List Char) : List Char :=
  let size : Int := (filename.length : Int) + suffix.length + 11 - 255
  if 0 < size then
    (filename.take (filename.length - size.toNat - 1)) ++ ['~'] ++ '.' :: suffix
  else
    filename ++ '.' :: suffix

/-- Claim C8: the trashed name is basename ++ "." ++ suffix; when its
length plus the length of ".trashinfo" would exceed NAME_MAX (255), only
the basename portion is shortened — to its first 243 - suffix_len
characters, so the suffix is kept verbatim — with a single tilde at the
end of the shortened basename right before the dot, and the resulting
info-file name length (the name plus the 10 characters of ".trashinfo")
does not exceed NAME_MAX. The suffix-length bound keeps the C code's
tilde index inside the buffer; gen_date_suffix produces 14 characters. -/
theorem trashed_name_spec (filename suffix : List Char)
    (hsuf : suffix.length + 12 ≤ 255) :
    (filename.length + suffix.length + 11 ≤ 255 →
      mkTrashedName filename suffix = filename ++ '.' :: suffix) ∧
    (255 < filename.length + suffix.length + 11 →
      mkTrashedName filename suffix
        = (filename.take (243 - suffix.length)) ++ '~' :: '.' :: suffix ∧
      (mkTrashedName filename suffix).length + 10 ≤ 255) := by
  constructor
  · intro hle
    unfold mkTrashedName
    rw [if_neg (by omega)]
  · intro hgt
    have hname : mkTrashedName filename suffix
        = (filename.take (243 - suffix.length)) ++ '~' :: '.' :: suffix := by
      unfold mkTrashedName
      rw [if_pos (by omega)]
      have hidx : filename.length
          - ((filename.length : Int) + suffix.length + 11 - 255).toNat - 1
          = 243 - suffix.length := by omega
      rw [hidx]
      simp
    refine ⟨hname, ?_⟩
    rw [hname]
    simp only [List.length_append, List.length_take, List.length_cons]
    omega

def longName : List Char := List.replicate 250 'a'

/-- Witness for C8 at a 250-character basename and a 2-character suffix:
the name overflows NAME_MAX, the basename is cut to 241 characters plus
the tilde, the suffix survives intact, and the info-file name fits. -/
theorem trashed_name_spec_witness :
    mkTrashedName longName ['s', 'f']
      = (longName.take (243 - 2)) ++ '~' :: '.' :: ['s', 'f'] ∧
    (mkTrashedName longName ['s', 'f']).length + 10 ≤ 255 :=
  (trashed_name_spec longName ['s', 'f'] (by norm_num)).2 (by norm_num [longName])

/-! ## Guard against trashing the trash directory: check_trash_file
(trash.c lines 1007-1042) and trash_files_args (lines 1045-1073)

Paths are lists of characters. check_trash_file first resolves a
relative argument against the workspace path, then rejects the
candidate when strncmp(tmp, trash_dir, strlen(tmp)) is zero — tmp is a
string prefix of trash_dir, which covers trash_dir itself and every
ancestor of it — or when strncmp(tmp, trash_dir, strlen(trash_dir)) is
zero — trash_dir is a string prefix of tmp, which covers trash_dir
itself and everything inside it; only then does it lstat the file and
reject block and character devices. trash_files_args runs the guard on
each argument before calling trash_element, skipping the argument when
the guard fails; its per-iteration assignment overwrites exit_status,
so the returned status is the last iteration's, as in the C. The third
component collects the files actually handed to trash_element. -/

def begins_with : List Char → List Char → Bool
  | [], _ => true
  | _ :: _, [] => false
  | a :: as, b :: bs => a == b && begins_with as bs

def resolve_path (cwd file : List Char) : List Char :=
  if file.head? = some '/' then file else cwd ++ '/' :: file

def check_trash_file (tdir cwd file : List Char) (lstatOk blkChr : Bool) : Nat :=
  let tmp := resolve_path cwd file
  if begins_with tmp tdir then 1
  else if begins_with tdir tmp then 1
  else if lstatOk = false then 1
  else if blkChr then 1
  else 0

def trash_files_args (check : List Char → Nat)
    (elem : List Char → TrashState → Nat × TrashState) :
    List (List Char) → TrashState → Nat × TrashState × List (List Char)
  | [], s => (0, s, [])
  | f :: rest, s =>
    if check f = 1 then
      let r := trash_files_args check elem rest s
      ((if rest.isEmpty then 1 else r.1), r.2.1, r.2.2)
    else
      let e1 := elem f s
      let r := trash_files_args check elem rest e1.2
      ((if rest.isEmpty then e1.1 else r.1), r.2.1, f :: r.2.2)

lemma begins_with_append (pre t : List Char) : begins_with pre (pre ++ t) = true := by
  induction pre with
  | nil => rfl
  | cons a as ih => simp [begins_with, ih]

/-- Claim C10: for every path that resolves to the trash directory
itself, to a path inside the trash directory, or to an ancestor of the
trash directory, check_trash_file fails, and a trash invocation on that
path returns failure with the state unchanged and trash_element never
called — the rejection happens before any validation or copying. -/
theorem trash_dir_guard (tdir cwd file : List Char) (lst blk : Bool)
    (elem : List Char → TrashState → Nat × TrashState) (s : TrashState)
    (h : resolve_path cwd file = tdir ∨
         (∃ r, resolve_path cwd file = tdir ++ '/' :: r) ∨
         (∃ r, tdir = resolve_path cwd file ++ '/' :: r)) :
    check_trash_file tdir cwd file lst blk = 1 ∧
    trash_files_args (fun g => check_trash_file tdir cwd g lst blk) elem [file] s
      = (1, s, []) := by
  have hchk : check_trash_file tdir cwd file lst blk = 1 := by
    rcases h with h1 | ⟨r, h2⟩ | ⟨r, h3⟩
    · have hb : begins_with (resolve_path cwd file) tdir = true := by
        rw [h1]
        simpa using begins_with_append tdir []
      simp [check_trash_file, hb]
    · have hb2 : begins_with tdir (resolve_path cwd file) = true := by
        rw [h2]
        exact begins_with_append tdir _
      cases hb1 : begins_with (resolve_path cwd file) tdir
      · simp [check_trash_file, hb1, hb2]
      · simp [check_trash_file, hb1]
    · have hb : begins_with (resolve_path cwd file) tdir = true := by
        rw [h3]
        exact begins_with_append _ _
      simp [check_trash_file, hb]
  refine ⟨hchk, ?_⟩
  simp [trash_files_args, hchk]

/-- Witness for C10: with the trash directory "/t" and the absolute
argument "/t/x" (a path inside it), the guard rejects and a one-file
trash invocation changes nothing and calls trash_element on nothing. -/
theorem trash_dir_guard_witness :
    check_trash_file ['/', 't'] ['/', 'w'] ['/', 't', '/', 'x'] true false = 1 ∧
    trash_files_args
        (fun g => check_trash_file ['/', 't'] ['/', 'w'] g true false)
        (fun _ t => (0, t)) [['/', 't', '/', 'x']]
        { origExists := true, contentInTrash := false, infoInTrash := false }
      = (1, { origExists := true, contentInTrash := false, infoInTrash := false }, []) :=
  trash_dir_guard ['/', 't'] ['/', 'w'] ['/', 't', '/', 'x'] true false
    (fun _ t => (0, t))
    { origExists := true, contentInTrash := false, infoInTrash := false }
    (Or.inr (Or.inl ⟨['x'], rfl⟩))
